import Mathlib

/-!
Verification of the ailane-backend core against its specification.

Each Python module that the claims touch is shallowly embedded as Lean
definitions:

* `AceiEngine` — the four-factor scoring pipeline of `src/acei_engine`
  (impact, likelihood, velocity, mitigation, composition).  Python float
  arithmetic is modelled as real arithmetic; `round(x, n)` is modelled as
  rounding `x * 10^n` to the nearest integer (the claims never hit a tie,
  where the Python half-to-even rule would differ from Mathlib `round`).
* `EngineComplete` — the EII calculator of
  `src/backend/acei/acei_engine_complete.py`.
* `DupDetect` — the duplicate detector of
  `src/backend/scrapers/duplicate_detector.py`, embedded as explicit state
  passing over a table state, with Boolean failure oracles standing for
  repository calls that raise.
* `DataIntegrity` — the quality checker of
  `src/backend/scrapers/data_integrity.py`.
* `BaseScr` — the deduplicating insert of `src/scrapers/base.py`.
-/

namespace Ailane

/-! ## Four-factor ACEI engine (`src/acei_engine`) -/

namespace AceiEngine

noncomputable section

/-- `ImpactInput` from `src/acei_engine/models.py`.  The pydantic range
constraints (`ge=0, le=10` on every field) are expressed by `ValidImpact`
below rather than baked into the type. -/
structure ImpactInput where
  regulatory_severity : ℝ
  financial_exposure : ℝ
  operational_disruption : ℝ
  scope_breadth : ℝ

/-- `LikelihoodInput` from `src/acei_engine/models.py`. -/
structure LikelihoodInput where
  enforcement_history : ℝ
  regulatory_momentum : ℝ
  political_support : ℝ
  industry_readiness : ℝ

/-- `VelocityInput` from `src/acei_engine/models.py`.  `days_to_effective`
is an optional non-negative integer (`Optional[int]`, `ge=0`), hence
`Option ℕ`. -/
structure VelocityInput where
  days_to_effective : Option ℕ
  amendment_frequency : ℝ
  consultation_stage : ℝ

/-- `MitigationInput` from `src/acei_engine/models.py`. -/
structure MitigationInput where
  controls_in_place : ℝ
  monitoring_coverage : ℝ
  response_capability : ℝ

/-- `ACEIInput` from `src/acei_engine/models.py`; the identification
fields (`organization_id`, `risk_category`, `jurisdiction`, `label`) do
not enter any computation and are omitted. -/
structure ACEIInput where
  impact : ImpactInput
  likelihood : LikelihoodInput
  velocity : VelocityInput
  mitigation : Option MitigationInput

/-- Pydantic field ranges of `ImpactInput` (each field in `[0, 10]`). -/
def ValidImpact (i : ImpactInput) : Prop :=
  0 ≤ i.regulatory_severity ∧ i.regulatory_severity ≤ 10 ∧
  0 ≤ i.financial_exposure ∧ i.financial_exposure ≤ 10 ∧
  0 ≤ i.operational_disruption ∧ i.operational_disruption ≤ 10 ∧
  0 ≤ i.scope_breadth ∧ i.scope_breadth ≤ 10

/-- Pydantic field ranges of `LikelihoodInput` (each field in `[0, 10]`). -/
def ValidLikelihood (l : LikelihoodInput) : Prop :=
  0 ≤ l.enforcement_history ∧ l.enforcement_history ≤ 10 ∧
  0 ≤ l.regulatory_momentum ∧ l.regulatory_momentum ≤ 10 ∧
  0 ≤ l.political_support ∧ l.political_support ≤ 10 ∧
  0 ≤ l.industry_readiness ∧ l.industry_readiness ≤ 10

/-- Pydantic field ranges of `VelocityInput` (`days_to_effective` is a
non-negative integer by its type, `amendment_frequency` in `[0, 10]`,
`consultation_stage` in `[0, 1]`). -/
def ValidVelocity (v : VelocityInput) : Prop :=
  0 ≤ v.amendment_frequency ∧ v.amendment_frequency ≤ 10 ∧
  0 ≤ v.consultation_stage ∧ v.consultation_stage ≤ 1

/-- Pydantic field ranges of `MitigationInput` (each field in `[0, 10]`). -/
def ValidMitigation (m : MitigationInput) : Prop :=
  0 ≤ m.controls_in_place ∧ m.controls_in_place ≤ 10 ∧
  0 ≤ m.monitoring_coverage ∧ m.monitoring_coverage ≤ 10 ∧
  0 ≤ m.response_capability ∧ m.response_capability ≤ 10

/-- Range constraints of a whole `ACEIInput`. -/
def ValidInput (inp : ACEIInput) : Prop :=
  ValidImpact inp.impact ∧ ValidLikelihood inp.likelihood ∧
  ValidVelocity inp.velocity ∧
  ∀ m, inp.mitigation = some m → ValidMitigation m

/-- Python `round(x, 2)`: round to 2 decimal places. -/
def round2 (x : ℝ) : ℝ := (round (x * 100) : ℝ) / 100

/-- Python `round(x, 3)`: round to 3 decimal places. -/
def round3 (x : ℝ) : ℝ := (round (x * 1000) : ℝ) / 1000

/-- Python `round(x, 4)`: round to 4 decimal places. -/
def round4 (x : ℝ) : ℝ := (round (x * 10000) : ℝ) / 10000

/-- `compute_impact` from `src/acei_engine/impact.py`: weighted sum with
the `WEIGHTS` table `{0.35, 0.30, 0.20, 0.15}`, clamped to `[0, 10]`. -/
def compute_impact (inp : ImpactInput) : ℝ :=
  let score := inp.regulatory_severity * 0.35 + inp.financial_exposure * 0.30
    + inp.operational_disruption * 0.20 + inp.scope_breadth * 0.15
  min (max score 0.0) 10.0

/-- `compute_likelihood` from `src/acei_engine/likelihood.py`: weighted
sum with `{0.30, 0.35, 0.20, 0.15}` where `industry_readiness` is first
inverted as `10 - value`, clamped to `[0, 10]`. -/
def compute_likelihood (inp : LikelihoodInput) : ℝ :=
  let inverted_readiness := 10.0 - inp.industry_readiness
  let score := inp.enforcement_history * 0.30 + inp.regulatory_momentum * 0.35
    + inp.political_support * 0.20 + inverted_readiness * 0.15
  min (max score 0.0) 10.0

/-- `compute_velocity` from `src/acei_engine/velocity.py`. -/
def compute_velocity (inp : VelocityInput) : ℝ :=
  let time_factor : ℝ :=
    match inp.days_to_effective with
    | some d => if 0 < d then 1.0 / (1.0 + Real.exp (((d : ℝ) - 180) / 60)) else 0.5
    | none => 0.5
  let amendment_factor := inp.amendment_frequency / 10.0
  let stage_factor := inp.consultation_stage
  let raw := 1.0 + (time_factor * 0.8) + (amendment_factor * 0.6) + (stage_factor * 0.6)
  min (max (round3 raw) 0.1) 3.0

/-- `MAX_CREDIT` from `src/acei_engine/mitigation.py`. -/
def MAX_CREDIT : ℝ := 0.70

/-- `compute_mitigation` from `src/acei_engine/mitigation.py`: weighted
sum with `{0.45, 0.30, 0.25}`, then `(raw / 10) * MAX_CREDIT`, clamped to
`[0, MAX_CREDIT]`. -/
def compute_mitigation (inp : MitigationInput) : ℝ :=
  let raw := inp.controls_in_place * 0.45 + inp.monitoring_coverage * 0.30
    + inp.response_capability * 0.25
  let credit := (raw / 10.0) * MAX_CREDIT
  min (max credit 0.0) MAX_CREDIT

/-- `normalise_to_100` from `src/acei_engine/normalise.py`. -/
def normalise_to_100 (value : ℝ) (max_theoretical : ℝ) : ℝ :=
  let ratio := value / max_theoretical
  let score := ratio * 100.0
  min (max score 0.0) 100.0

open scoped Classical in
/-- `score_to_grade` from `src/acei_engine/normalise.py`. -/
def score_to_grade (score : ℝ) : String :=
  if score ≤ 20 then "A"
  else if score ≤ 40 then "B"
  else if score ≤ 60 then "C"
  else if score ≤ 80 then "D"
  else "F"

/-- The expression `compute_mitigation(inp.mitigation) if inp.mitigation
else 0.0` from `src/acei_engine/compute.py` line 42. -/
def credit_of : Option MitigationInput → ℝ
  | some m => compute_mitigation m
  | none => 0.0

/-- `ACEIScore` from `src/acei_engine/models.py`, restricted to the
computed fields (the echoed identification fields, engine version string
and wall-clock timestamp are omitted). -/
structure ACEIScore where
  impact_score : ℝ
  likelihood_score : ℝ
  velocity_multiplier : ℝ
  raw_score : ℝ
  adjusted_score : ℝ
  mitigation_credit : ℝ
  final_score : ℝ
  grade : String

/-- `compute_acei` from `src/acei_engine/compute.py`. -/
def compute_acei (inp : ACEIInput) : ACEIScore :=
  let impact := compute_impact inp.impact
  let likelihood := compute_likelihood inp.likelihood
  let raw := impact * likelihood
  let velocity := compute_velocity inp.velocity
  let adjusted := raw * velocity
  let mitigation := credit_of inp.mitigation
  let after_mitigation := adjusted * (1.0 - mitigation)
  let final := normalise_to_100 after_mitigation 300.0
  { impact_score := round2 impact
    likelihood_score := round2 likelihood
    velocity_multiplier := round2 velocity
    raw_score := round2 raw
    adjusted_score := round2 adjusted
    mitigation_credit := round4 mitigation
    final_score := round2 final
    grade := score_to_grade final }

/-- The final score recomputed with an explicit mitigation credit `c`;
`(compute_acei inp).final_score` equals `final_with_credit inp
(credit_of inp.mitigation)` definitionally. -/
def final_with_credit (inp : ACEIInput) (c : ℝ) : ℝ :=
  round2 (normalise_to_100
    (compute_impact inp.impact * compute_likelihood inp.likelihood
      * compute_velocity inp.velocity * (1.0 - c)) 300.0)

end

/-! ### Basic bounds -/

theorem clamp_mem {x lo hi : ℝ} (h : lo ≤ hi) :
    lo ≤ min (max x lo) hi ∧ min (max x lo) hi ≤ hi :=
  ⟨le_min (le_max_right x lo) h, min_le_right _ _⟩

theorem round_mono_r {x y : ℝ} (h : x ≤ y) : round x ≤ round y := by
  rw [round_eq, round_eq]
  exact Int.floor_le_floor (by linarith)

theorem round2_bounds {x lo hi : ℝ} (hlo : lo ≤ x) (hhi : x ≤ hi)
    (hl : ∃ n : ℤ, (n : ℝ) = lo * 100) (hh : ∃ n : ℤ, (n : ℝ) = hi * 100) :
    lo ≤ round2 x ∧ round2 x ≤ hi := by
  obtain ⟨a, ha⟩ := hl
  obtain ⟨b, hb⟩ := hh
  constructor
  · have h1 : round (lo * 100) ≤ round (x * 100) := round_mono_r (by nlinarith)
    have h2 : round (lo * 100) = a := by rw [← ha, round_intCast]
    rw [round2]
    rw [h2] at h1
    have : (a : ℝ) ≤ (round (x * 100) : ℝ) := by exact_mod_cast h1
    rw [ha] at this
    linarith
  · have h1 : round (x * 100) ≤ round (hi * 100) := round_mono_r (by nlinarith)
    have h2 : round (hi * 100) = b := by rw [← hb, round_intCast]
    rw [round2]
    rw [h2] at h1
    have : (round (x * 100) : ℝ) ≤ (b : ℝ) := by exact_mod_cast h1
    rw [hb] at this
    linarith

theorem final_score_eq (inp : ACEIInput) :
    (compute_acei inp).final_score = final_with_credit inp (credit_of inp.mitigation) := rfl

theorem compute_mitigation_bounds (m : MitigationInput) :
    0 ≤ compute_mitigation m ∧ compute_mitigation m ≤ 0.70 := by
  simp only [compute_mitigation]
  constructor
  · exact le_min (le_trans (by norm_num) (le_max_right _ _)) (by norm_num [MAX_CREDIT])
  · exact le_trans (min_le_right _ _) (by norm_num [MAX_CREDIT])

theorem credit_of_bounds (o : Option MitigationInput) :
    0 ≤ credit_of o ∧ credit_of o ≤ 0.70 := by
  cases o with
  | none => norm_num [credit_of]
  | some m => exact compute_mitigation_bounds m

/-! ### C1 -/

/-- C1, counterexample.  The claim states that `compute_mitigation`
equals `min(weightedSum / 10, 0.70)`.  At the input
`controls_in_place = 10, monitoring_coverage = 0, response_capability = 0`
the weighted sum is `4.5`, the claimed value is `min(0.45, 0.70) = 0.45`,
but the code computes `(4.5 / 10) * 0.70 = 0.315`. -/
theorem c1_counterexample :
    compute_mitigation ⟨10, 0, 0⟩ ≠
      min ((10 * 0.45 + 0 * 0.30 + 0 * 0.25) / 10) 0.70 := by
  show min (max ((10 * 0.45 + 0 * 0.30 + 0 * 0.25 : ℝ) / 10.0 * MAX_CREDIT) 0.0) MAX_CREDIT ≠ _
  rw [MAX_CREDIT]
  rw [show max ((10 * 0.45 + 0 * 0.30 + 0 * 0.25 : ℝ) / 10.0 * 0.70) 0.0
      = 0.315 by rw [max_eq_left (by norm_num)]; norm_num]
  rw [min_eq_left (by norm_num), min_eq_left (by norm_num)]
  norm_num

/-- C1 (amended): for every `MitigationInput` with all three fields in
`[0, 10]`, `compute_mitigation` returns the weighted sum with weights
`{controls_in_place: 0.45, monitoring_coverage: 0.30,
response_capability: 0.25}`, divided by 10 and multiplied by the maximum
credit `0.70` (so the `0.70` cap is attained only at the maximal weighted
sum), the result lying in `[0, 0.70]`; when the mitigation object is
absent, `compute_acei` uses a mitigation credit of `0`. -/
theorem c1_mitigation (m : MitigationInput) (hm : ValidMitigation m) :
    compute_mitigation m =
      (m.controls_in_place * 0.45 + m.monitoring_coverage * 0.30
        + m.response_capability * 0.25) / 10 * 0.70 ∧
    compute_mitigation m ≤ 0.70 ∧ 0 ≤ compute_mitigation m ∧
    ∀ inp : ACEIInput, inp.mitigation = none →
      (compute_acei inp).mitigation_credit = 0 ∧
      (compute_acei inp).final_score = final_with_credit inp 0 := by
  obtain ⟨h1, h2, h3, h4, h5, h6⟩ := hm
  refine ⟨?_, (compute_mitigation_bounds m).2, (compute_mitigation_bounds m).1, ?_⟩
  · simp only [compute_mitigation, MAX_CREDIT]
    rw [max_eq_left (by linarith)]
    rw [min_eq_left (by nlinarith)]
    norm_num
  · intro inp hnone
    constructor
    · show round4 (credit_of inp.mitigation) = 0
      rw [hnone]
      norm_num [credit_of, round4]
    · rw [final_score_eq, hnone]
      rw [show credit_of none = 0 from by norm_num [credit_of]]

/-- Witness for C1: the amended formula evaluated at the concrete
mitigation input `(7, 6, 5)`. -/
theorem c1_mitigation_witness :
    compute_mitigation ⟨7, 6, 5⟩ =
      ((7 : ℝ) * 0.45 + 6 * 0.30 + 5 * 0.25) / 10 * 0.70 :=
  (c1_mitigation ⟨7, 6, 5⟩ (by refine ⟨?_, ?_, ?_, ?_, ?_, ?_⟩ <;> norm_num)).1

theorem compute_impact_bounds (i : ImpactInput) :
    0 ≤ compute_impact i ∧ compute_impact i ≤ 10 := by
  simp only [compute_impact]
  constructor
  · exact le_min (le_trans (by norm_num) (le_max_right _ _)) (by norm_num)
  · exact le_trans (min_le_right _ _) (by norm_num)

theorem compute_likelihood_bounds (l : LikelihoodInput) :
    0 ≤ compute_likelihood l ∧ compute_likelihood l ≤ 10 := by
  simp only [compute_likelihood]
  constructor
  · exact le_min (le_trans (by norm_num) (le_max_right _ _)) (by norm_num)
  · exact le_trans (min_le_right _ _) (by norm_num)

theorem compute_velocity_bounds (v : VelocityInput) :
    0.1 ≤ compute_velocity v ∧ compute_velocity v ≤ 3.0 := by
  simp only [compute_velocity]
  exact ⟨le_min (le_max_right _ _) (by norm_num), min_le_right _ _⟩

theorem normalise_bounds (v M : ℝ) :
    0 ≤ normalise_to_100 v M ∧ normalise_to_100 v M ≤ 100 := by
  simp only [normalise_to_100]
  constructor
  · exact le_min (le_trans (by norm_num) (le_max_right _ _)) (by norm_num)
  · exact le_trans (min_le_right _ _) (by norm_num)

theorem final_score_bounds (inp : ACEIInput) :
    0 ≤ (compute_acei inp).final_score ∧ (compute_acei inp).final_score ≤ 100 := by
  rw [final_score_eq]
  simp only [final_with_credit]
  exact round2_bounds (normalise_bounds _ _).1 (normalise_bounds _ _).2
    ⟨0, by norm_num⟩ ⟨10000, by norm_num⟩

/-! ### C2 -/

/-- C2: for every `ACEIInput` whose sub-fields satisfy the documented
field ranges, `compute_impact` and `compute_likelihood` return values in
`[0, 10]`, `compute_mitigation` a value in `[0, 0.70]`,
`compute_velocity` a value in `[0.1, 3.0]`, and the final score returned
by `compute_acei` lies in `[0, 100]`. -/
theorem c2_bounds (inp : ACEIInput) (_h : ValidInput inp) :
    (0 ≤ compute_impact inp.impact ∧ compute_impact inp.impact ≤ 10) ∧
    (0 ≤ compute_likelihood inp.likelihood ∧ compute_likelihood inp.likelihood ≤ 10) ∧
    (∀ m, inp.mitigation = some m →
      0 ≤ compute_mitigation m ∧ compute_mitigation m ≤ 0.70) ∧
    (0.1 ≤ compute_velocity inp.velocity ∧ compute_velocity inp.velocity ≤ 3.0) ∧
    (0 ≤ (compute_acei inp).final_score ∧ (compute_acei inp).final_score ≤ 100) :=
  ⟨compute_impact_bounds _, compute_likelihood_bounds _,
   fun m _ => compute_mitigation_bounds m,
   compute_velocity_bounds _, final_score_bounds inp⟩

/-- Witness for C2: the bound statement applied at the golden-test
input of `src/acei_engine/tests/test_golden.py`. -/
theorem c2_bounds_witness :
    0 ≤ (compute_acei ⟨⟨7, 6, 5, 4⟩, ⟨6, 7, 5, 4⟩, ⟨some 90, 5, 0.8⟩, none⟩).final_score ∧
    (compute_acei ⟨⟨7, 6, 5, 4⟩, ⟨6, 7, 5, 4⟩, ⟨some 90, 5, 0.8⟩, none⟩).final_score ≤ 100 :=
  (c2_bounds ⟨⟨7, 6, 5, 4⟩, ⟨6, 7, 5, 4⟩, ⟨some 90, 5, 0.8⟩, none⟩
    ⟨by norm_num [ValidImpact], by norm_num [ValidLikelihood],
     by norm_num [ValidVelocity], fun m hm => nomatch hm⟩).2.2.2.2

/-! ### C3 -/

/-- Two impact inputs that agree on all but (at most) one field, the
second being at least as large there. -/
def SingleImpactFieldLe (a b : ImpactInput) : Prop :=
  (a.regulatory_severity ≤ b.regulatory_severity ∧
    a.financial_exposure = b.financial_exposure ∧
    a.operational_disruption = b.operational_disruption ∧
    a.scope_breadth = b.scope_breadth) ∨
  (a.regulatory_severity = b.regulatory_severity ∧
    a.financial_exposure ≤ b.financial_exposure ∧
    a.operational_disruption = b.operational_disruption ∧
    a.scope_breadth = b.scope_breadth) ∨
  (a.regulatory_severity = b.regulatory_severity ∧
    a.financial_exposure = b.financial_exposure ∧
    a.operational_disruption ≤ b.operational_disruption ∧
    a.scope_breadth = b.scope_breadth) ∨
  (a.regulatory_severity = b.regulatory_severity ∧
    a.financial_exposure = b.financial_exposure ∧
    a.operational_disruption = b.operational_disruption ∧
    a.scope_breadth ≤ b.scope_breadth)

theorem compute_impact_mono {a b : ImpactInput} (h : SingleImpactFieldLe a b) :
    compute_impact a ≤ compute_impact b := by
  have hsum : a.regulatory_severity * 0.35 + a.financial_exposure * 0.30
      + a.operational_disruption * 0.20 + a.scope_breadth * 0.15 ≤
      b.regulatory_severity * 0.35 + b.financial_exposure * 0.30
      + b.operational_disruption * 0.20 + b.scope_breadth * 0.15 := by
    rcases h with ⟨h1, h2, h3, h4⟩ | ⟨h1, h2, h3, h4⟩ | ⟨h1, h2, h3, h4⟩ | ⟨h1, h2, h3, h4⟩ <;>
      linarith
  simp only [compute_impact]
  exact min_le_min (max_le_max hsum le_rfl) le_rfl

theorem round2_mono {x y : ℝ} (h : x ≤ y) : round2 x ≤ round2 y := by
  simp only [round2]
  have h1 : round (x * 100) ≤ round (y * 100) := round_mono_r (by nlinarith)
  have h2 : ((round (x * 100) : ℤ) : ℝ) ≤ ((round (y * 100) : ℤ) : ℝ) := by exact_mod_cast h1
  linarith

theorem normalise_mono {x y : ℝ} (h : x ≤ y) :
    normalise_to_100 x 300.0 ≤ normalise_to_100 y 300.0 := by
  simp only [normalise_to_100]
  have hx : x / 300.0 * 100.0 ≤ y / 300.0 * 100.0 := by linarith
  exact min_le_min (max_le_max hx le_rfl) le_rfl

/-- C3: increasing a single Impact field (all else fixed) never decreases
the final score, and adding a `MitigationInput` with positive fields to an
input without mitigation never increases the final score. -/
theorem c3_monotonicity :
    (∀ (inp : ACEIInput) (b : ImpactInput), ValidInput inp → ValidImpact b →
      SingleImpactFieldLe inp.impact b →
      (compute_acei inp).final_score ≤
        (compute_acei { inp with impact := b }).final_score) ∧
    (∀ (inp : ACEIInput) (m : MitigationInput), ValidInput inp →
      inp.mitigation = none →
      0 < m.controls_in_place → 0 < m.monitoring_coverage →
      0 < m.response_capability →
      (compute_acei { inp with mitigation := some m }).final_score ≤
        (compute_acei inp).final_score) := by
  constructor
  · intro inp b _ _ hle
    rw [final_score_eq, final_score_eq]
    simp only [final_with_credit]
    apply round2_mono
    apply normalise_mono
    have hI := compute_impact_mono hle
    have hL0 := (compute_likelihood_bounds inp.likelihood).1
    have hV0 : (0 : ℝ) ≤ compute_velocity inp.velocity :=
      le_trans (by norm_num) (compute_velocity_bounds inp.velocity).1
    have hM0 : (0 : ℝ) ≤ 1.0 - credit_of inp.mitigation := by
      have := (credit_of_bounds inp.mitigation).2
      linarith
    exact mul_le_mul_of_nonneg_right
      (mul_le_mul_of_nonneg_right (mul_le_mul_of_nonneg_right hI hL0) hV0) hM0
  · intro inp m _ hnone _ _ _
    rw [final_score_eq, final_score_eq, hnone]
    simp only [final_with_credit, credit_of]
    apply round2_mono
    apply normalise_mono
    have hA : (0 : ℝ) ≤ compute_impact inp.impact * compute_likelihood inp.likelihood
        * compute_velocity inp.velocity :=
      mul_nonneg (mul_nonneg (compute_impact_bounds inp.impact).1
        (compute_likelihood_bounds inp.likelihood).1)
        (le_trans (by norm_num) (compute_velocity_bounds inp.velocity).1)
    have hc := (compute_mitigation_bounds m).1
    nlinarith [mul_nonneg hA hc]

/-- Witness for C3: both monotonicity statements applied at concrete
inputs (raising `regulatory_severity` from 2 to 9; adding the mitigation
`(8, 7, 6)` of the golden tests). -/
theorem c3_monotonicity_witness :
    (compute_acei ⟨⟨2, 2, 2, 2⟩, ⟨6, 7, 5, 4⟩, ⟨some 90, 5, 0.8⟩, none⟩).final_score ≤
      (compute_acei ⟨⟨9, 2, 2, 2⟩, ⟨6, 7, 5, 4⟩, ⟨some 90, 5, 0.8⟩, none⟩).final_score ∧
    (compute_acei ⟨⟨2, 2, 2, 2⟩, ⟨6, 7, 5, 4⟩, ⟨some 90, 5, 0.8⟩, some ⟨8, 7, 6⟩⟩).final_score ≤
      (compute_acei ⟨⟨2, 2, 2, 2⟩, ⟨6, 7, 5, 4⟩, ⟨some 90, 5, 0.8⟩, none⟩).final_score :=
  ⟨c3_monotonicity.1 ⟨⟨2, 2, 2, 2⟩, ⟨6, 7, 5, 4⟩, ⟨some 90, 5, 0.8⟩, none⟩ ⟨9, 2, 2, 2⟩
      ⟨by norm_num [ValidImpact], by norm_num [ValidLikelihood],
       by norm_num [ValidVelocity], fun m hm => nomatch hm⟩
      (by norm_num [ValidImpact])
      (by norm_num [SingleImpactFieldLe]),
   c3_monotonicity.2 ⟨⟨2, 2, 2, 2⟩, ⟨6, 7, 5, 4⟩, ⟨some 90, 5, 0.8⟩, none⟩ ⟨8, 7, 6⟩
      ⟨by norm_num [ValidImpact], by norm_num [ValidLikelihood],
       by norm_num [ValidVelocity], fun m hm => nomatch hm⟩
      rfl (by norm_num) (by norm_num) (by norm_num)⟩

/-! ### C6 -/

/-- The velocity formula exactly as the claim states it
(`timeFactor = 1/(1+e^((days−180)/60))` when a deadline is known and
positive, else `0.5`; `raw = 1.0 + 0.8·timeFactor + 0.6·(amendment/10)
+ 0.6·stage`; rounded to 3 decimals, clamped to `[0.1, 3.0]`), written
from the specification for comparison with `compute_velocity`. -/
noncomputable def velocity_spec (inp : VelocityInput) : ℝ :=
  let timeFactor : ℝ :=
    match inp.days_to_effective with
    | some d => if 0 < d then 1 / (1 + Real.exp (((d : ℝ) - 180) / 60)) else 0.5
    | none => 0.5
  min (max (round3 (1.0 + 0.8 * timeFactor + 0.6 * (inp.amendment_frequency / 10)
    + 0.6 * inp.consultation_stage)) 0.1) 3.0

theorem exp_three_lo : (20.08 : ℝ) < Real.exp 3 := by
  have h3 : Real.exp 3 = Real.exp 1 ^ 3 := by
    rw [show (3 : ℝ) = ((3 : ℕ) : ℝ) * 1 by norm_num, Real.exp_nat_mul]
  rw [h3]
  calc (20.08 : ℝ) < 2.7182818283 ^ 3 := by norm_num
    _ < Real.exp 1 ^ 3 := pow_lt_pow_left₀ Real.exp_one_gt_d9 (by norm_num) (by norm_num)

theorem exp_three_hi : Real.exp 3 < 20.09 := by
  have h3 : Real.exp 3 = Real.exp 1 ^ 3 := by
    rw [show (3 : ℝ) = ((3 : ℕ) : ℝ) * 1 by norm_num, Real.exp_nat_mul]
  rw [h3]
  calc Real.exp 1 ^ 3 < 2.7182818286 ^ 3 :=
        pow_lt_pow_left₀ Real.exp_one_lt_d9 (Real.exp_pos 1).le (by norm_num)
    _ < 20.09 := by norm_num

theorem exp_three_halves_lo : (4.48 : ℝ) < Real.exp (3 / 2) := by
  have hsq : Real.exp (3 / 2 : ℝ) ^ 2 = Real.exp 3 := by
    rw [← Real.exp_nat_mul]; norm_num
  apply lt_of_pow_lt_pow_left₀ 2 (Real.exp_pos _).le
  rw [hsq]
  nlinarith [exp_three_lo]

theorem exp_three_halves_hi : Real.exp (3 / 2) < 4.4823 := by
  have hsq : Real.exp (3 / 2 : ℝ) ^ 2 = Real.exp 3 := by
    rw [← Real.exp_nat_mul]; norm_num
  apply lt_of_pow_lt_pow_left₀ 2 (by norm_num)
  rw [hsq]
  nlinarith [exp_three_hi]

/-- C6: `compute_velocity` returns exactly
`min(max(round3(1.0 + 0.8·timeFactor + 0.6·(amendment_frequency/10)
+ 0.6·consultation_stage), 0.1), 3.0)` with
`timeFactor = 1/(1+e^((days−180)/60))` when `days_to_effective` is
present and positive and `0.5` otherwise; and at
`days_to_effective = 90, amendment_frequency = 5, consultation_stage =
0.8` the velocity multiplier is `2.434` (the value `≈ 2.434` of the
claim, exact after rounding to 3 decimals). -/
theorem c6_velocity :
    (∀ inp : VelocityInput, compute_velocity inp = velocity_spec inp) ∧
    compute_velocity ⟨some 90, 5, 0.8⟩ = 2.434 := by
  constructor
  · intro inp
    obtain ⟨days, af, cs⟩ := inp
    cases days with
    | none =>
      simp only [compute_velocity, velocity_spec]
      ring_nf
    | some d =>
      by_cases hpos : 0 < d <;>
        simp only [compute_velocity, velocity_spec, hpos, if_true, if_false,
          reduceIte] <;> ring_nf
  · simp only [compute_velocity]
    rw [show ((((90 : ℕ) : ℝ)) - 180) / 60 = -(3 / 2) by norm_num]
    rw [if_pos (by norm_num : (0 : ℕ) < 90)]
    rw [Real.exp_neg]
    have hEpos : (0 : ℝ) < Real.exp (3 / 2) := Real.exp_pos _
    have hy_lo : (0.2230 : ℝ) < (Real.exp (3 / 2))⁻¹ := by
      rw [inv_eq_one_div]
      calc (0.2230 : ℝ) < 1 / 4.4823 := by norm_num
        _ < 1 / Real.exp (3 / 2) := one_div_lt_one_div_of_lt hEpos exp_three_halves_hi
    have hy_hi : (Real.exp (3 / 2))⁻¹ < 0.2233 := by
      rw [inv_eq_one_div]
      calc 1 / Real.exp (3 / 2) < 1 / 4.48 :=
            one_div_lt_one_div_of_lt (by norm_num) exp_three_halves_lo
        _ < 0.2233 := by norm_num
    have h1y : (0 : ℝ) < 1.0 + (Real.exp (3 / 2))⁻¹ := by positivity
    have htf_lo : (1 : ℝ) / 1.2233 < 1.0 / (1.0 + (Real.exp (3 / 2))⁻¹) := by
      have hb : (1.0 : ℝ) + (Real.exp (3 / 2))⁻¹ < 1.2233 := by linarith
      calc (1 : ℝ) / 1.2233 < 1 / (1.0 + (Real.exp (3 / 2))⁻¹) :=
            one_div_lt_one_div_of_lt h1y hb
        _ = 1.0 / (1.0 + (Real.exp (3 / 2))⁻¹) := by norm_num
    have htf_hi : 1.0 / (1.0 + (Real.exp (3 / 2))⁻¹) < 1 / 1.2230 := by
      have hb : (1.2230 : ℝ) < 1.0 + (Real.exp (3 / 2))⁻¹ := by linarith
      calc 1.0 / (1.0 + (Real.exp (3 / 2))⁻¹)
          = 1 / (1.0 + (Real.exp (3 / 2))⁻¹) := by norm_num
        _ < 1 / 1.2230 := one_div_lt_one_div_of_lt (by norm_num) hb
    have hround : round ((1.0 + 1.0 / (1.0 + (Real.exp (3 / 2))⁻¹) * 0.8
        + (5 : ℝ) / 10.0 * 0.6 + (0.8 : ℝ) * 0.6) * 1000) = 2434 := by
      rw [round_eq]
      apply Int.floor_eq_iff.mpr
      constructor
      · push_cast
        nlinarith [htf_lo]
      · push_cast
        nlinarith [htf_hi]
    simp only [round3]
    rw [hround]
    norm_num [max_def, min_def]

end AceiEngine

/-! ## EII calculator (`src/backend/acei/acei_engine_complete.py`) -/

namespace EngineComplete

/-- `ordinal_map` from `src/backend/acei/acei_engine_complete.py`:
clamp the 0-100 score, take `1 + int(score_100 // 20)` (float floor
division, hence `Int.floor` of the quotient), cap at 5. -/
noncomputable def ordinal_map (score_100 : ℝ) : ℤ :=
  let s := max 0 (min 100 score_100)
  min 5 (1 + ⌊s / 20⌋)

/-- `EIICalculator.compute_eii`: weighted composite with the
`EII_WEIGHTS` table `{ras: 0.40, tas: 0.30, gps: 0.20, mvs: 0.10}`,
mapped through `ordinal_map`. -/
noncomputable def compute_eii (ras tas gps mvs : ℝ) : ℤ :=
  ordinal_map (0.40 * ras + 0.30 * tas + 0.20 * gps + 0.10 * mvs)

/-- C7: for sub-scores in `[0, 100]`, `compute_eii` combines them with
weights `{RAS: 0.40, TAS: 0.30, GPS: 0.20, MVS: 0.10}` into a composite
in `[0, 100]` and maps it to an ordinal 1-5 by fixed 20-point bands
(`[20k, 20k+20) ↦ k+1` for `k < 5`, the top endpoint 100 mapping to 5,
capped at 5). -/
theorem c7_eii (ras tas gps mvs : ℝ)
    (h1 : 0 ≤ ras) (h2 : ras ≤ 100) (h3 : 0 ≤ tas) (h4 : tas ≤ 100)
    (h5 : 0 ≤ gps) (h6 : gps ≤ 100) (h7 : 0 ≤ mvs) (h8 : mvs ≤ 100) :
    (0 ≤ 0.40 * ras + 0.30 * tas + 0.20 * gps + 0.10 * mvs ∧
      0.40 * ras + 0.30 * tas + 0.20 * gps + 0.10 * mvs ≤ 100) ∧
    compute_eii ras tas gps mvs =
      min 5 (1 + ⌊(0.40 * ras + 0.30 * tas + 0.20 * gps + 0.10 * mvs) / 20⌋) ∧
    1 ≤ compute_eii ras tas gps mvs ∧ compute_eii ras tas gps mvs ≤ 5 ∧
    (∀ k : ℕ, k < 5 →
      20 * (k : ℝ) ≤ 0.40 * ras + 0.30 * tas + 0.20 * gps + 0.10 * mvs →
      0.40 * ras + 0.30 * tas + 0.20 * gps + 0.10 * mvs < 20 * ((k : ℝ) + 1) →
      compute_eii ras tas gps mvs = (k : ℤ) + 1) ∧
    (0.40 * ras + 0.30 * tas + 0.20 * gps + 0.10 * mvs = 100 →
      compute_eii ras tas gps mvs = 5) := by
  have hc0 : 0 ≤ 0.40 * ras + 0.30 * tas + 0.20 * gps + 0.10 * mvs := by linarith
  have hc100 : 0.40 * ras + 0.30 * tas + 0.20 * gps + 0.10 * mvs ≤ 100 := by linarith
  have hclamp : max 0 (min 100 (0.40 * ras + 0.30 * tas + 0.20 * gps + 0.10 * mvs))
      = 0.40 * ras + 0.30 * tas + 0.20 * gps + 0.10 * mvs := by
    rw [min_eq_right hc100, max_eq_right hc0]
  have heq : compute_eii ras tas gps mvs =
      min 5 (1 + ⌊(0.40 * ras + 0.30 * tas + 0.20 * gps + 0.10 * mvs) / 20⌋) := by
    simp only [compute_eii, ordinal_map, hclamp]
  have hfl0 : (0 : ℤ) ≤ ⌊(0.40 * ras + 0.30 * tas + 0.20 * gps + 0.10 * mvs) / 20⌋ :=
    Int.floor_nonneg.mpr (by positivity)
  refine ⟨⟨hc0, hc100⟩, heq, ?_, ?_, ?_, ?_⟩
  · rw [heq]
    exact le_min (by norm_num) (by omega)
  · rw [heq]
    exact min_le_left _ _
  · intro k hk hklo hkhi
    have hfl : ⌊(0.40 * ras + 0.30 * tas + 0.20 * gps + 0.10 * mvs) / 20⌋ = (k : ℤ) := by
      apply Int.floor_eq_iff.mpr
      constructor
      · push_cast
        linarith
      · push_cast
        linarith
    rw [heq, hfl]
    rw [min_eq_right (by omega : 1 + (k : ℤ) ≤ 5)]
    omega
  · intro hc
    rw [heq, hc]
    norm_num

/-- Witness for C7: the band `[20, 40)` at the composite
`0.40·20 + 0.30·40 + 0.20·60 + 0.10·10 = 33` yields ordinal 2. -/
theorem c7_eii_witness : compute_eii 20 40 60 10 = 2 := by
  have h := (c7_eii 20 40 60 10 (by norm_num) (by norm_num) (by norm_num) (by norm_num)
    (by norm_num) (by norm_num) (by norm_num) (by norm_num)).2.2.2.2.1 1
    (by norm_num) (by norm_num) (by norm_num)
  omega

end EngineComplete

/-! ## Duplicate detector (`src/backend/scrapers/duplicate_detector.py`)

The Supabase tables `regulatory_updates` and `decision_versions` are
modelled as lists; row ids handed out by the store are modelled by a
counter `next_id`.  Each repository call that the Python wraps in
`try/except` gets a Boolean failure oracle: `true` means the call
raises (or returns no data, which the code treats identically).
Wall-clock fields (`changed_at`, `updated_at`) are omitted. -/

namespace DupDetect

/-- A `regulatory_updates` row as the detector sees it: its id, the
`source_identifier` and `source_type` columns, the
`metadata.content_hash` entry (the code defaults it to `""` when
absent, so a plain `String` suffices) and the
`metadata.previous_version_id` pointer written by `merge_duplicate`. -/
structure RegRecord where
  id : Nat
  source_identifier : String
  source_type : String
  content_hash : String
  meta_prev_version_id : Option Nat
deriving DecidableEq

/-- A `decision_versions` row (`DecisionVersion` dataclass, minus the
wall-clock `changed_at`). -/
structure VersionRecord where
  id : Nat
  source_identifier : String
  version : Nat
  content_hash : String
  changed_by : String
  change_reason : String
  previous_version_id : Option Nat
deriving DecidableEq

/-- The repository state: both tables plus the id counter. -/
structure DBState where
  regulatory_updates : List RegRecord
  decision_versions : List VersionRecord
  next_id : Nat
deriving DecidableEq

inductive DupAction
  | insert
  | update
  | skip
deriving DecidableEq

/-- The dictionary returned by `check_duplicate`. -/
structure DupCheckResult where
  is_duplicate : Bool
  action : DupAction
  existing_id : Option Nat
  existing_hash : Option String
  version : Nat
deriving DecidableEq

/-- The filter of the `check_duplicate` query:
`.eq('source_identifier', sid).eq('source_type', 'employment_tribunal')`. -/
def tribunal_matches (sid : String) (r : RegRecord) : Bool :=
  r.source_identifier == sid && r.source_type == "employment_tribunal"

/-- `DuplicateDetector._get_latest_version`: order the matching
`decision_versions` rows by version descending and take the first,
i.e. the maximum; `0` when there are none or when the query raises
(`vfail`). -/
def get_latest_version (s : DBState) (sid : String) (vfail : Bool) : Nat :=
  if vfail then 0
  else
    ((s.decision_versions.filter (fun v => v.source_identifier == sid)).map
      (fun v => v.version)).foldr Nat.max 0

/-- `DuplicateDetector.check_duplicate`.  `qfail` is the oracle for the
`regulatory_updates` query raising (the outer `except` branch), `vfail`
for the `decision_versions` query inside `_get_latest_version`. -/
def check_duplicate (s : DBState) (sid chash : String) (qfail vfail : Bool) :
    DupCheckResult :=
  if qfail then
    { is_duplicate := false, action := DupAction.insert,
      existing_id := none, existing_hash := none, version := 1 }
  else
    match s.regulatory_updates.filter (tribunal_matches sid) with
    | [] =>
      { is_duplicate := false, action := DupAction.insert,
        existing_id := none, existing_hash := none, version := 1 }
    | existing :: _ =>
      if existing.content_hash == chash then
        { is_duplicate := true, action := DupAction.skip,
          existing_id := some existing.id,
          existing_hash := some existing.content_hash,
          version := get_latest_version s sid vfail }
      else
        { is_duplicate := true, action := DupAction.update,
          existing_id := some existing.id,
          existing_hash := some existing.content_hash,
          version := get_latest_version s sid vfail + 1 }

/-- `DuplicateDetector.create_version_record`: insert a row into
`decision_versions` and return its id, or `none` when the insert fails
(the internal `except` swallows the error). -/
def create_version_record (s : DBState) (sid : String) (version : Nat)
    (chash changed_by reason : String) (prev : Option Nat) (wfail : Bool) :
    DBState × Option Nat :=
  if wfail then (s, none)
  else
    let vid := s.next_id
    (⟨s.regulatory_updates,
      s.decision_versions ++ [⟨vid, sid, version, chash, changed_by, reason, prev⟩],
      s.next_id + 1⟩, some vid)

/-- One observable repository write attempt of `merge_duplicate`, with
its success flag. -/
inductive MergeEvent
  | write_superseded_version (ok : Bool)
  | update_live (ok : Bool)
  | write_new_version (ok : Bool) (prev : Option Nat)
deriving DecidableEq

def isUpdateAttempt : MergeEvent → Bool
  | MergeEvent.update_live _ => true
  | _ => false

/-- Failure oracle for the four repository calls of `merge_duplicate`. -/
structure MergeOracle where
  select_raises : Bool
  superseded_write_fails : Bool
  update_raises : Bool
  new_write_fails : Bool
deriving DecidableEq

/-- The `new_data` dictionary handed to `merge_duplicate` (the fields
the model tracks). -/
structure NewData where
  source_identifier : String
  source_type : String
  content_hash : String
deriving DecidableEq

/-- `DuplicateDetector.merge_duplicate`, returning the final state, the
Boolean result, and the trace of write attempts in program order.  A
raise inside `create_version_record` is swallowed there (result
`none`); a raise of the live `update` is caught by the outer `except`
(result `False`), with writes already performed persisting. -/
def merge_duplicate (s : DBState) (existing_id : Nat) (nd : NewData)
    (chash : String) (version : Nat) (o : MergeOracle) :
    DBState × Bool × List MergeEvent :=
  if o.select_raises then (s, false, [])
  else
    match s.regulatory_updates.filter (fun r => r.id == existing_id) with
    | [] => (s, false, [])
    | existing :: _ =>
      let step1 := create_version_record s nd.source_identifier (version - 1)
        existing.content_hash "scraper" "Superseded by new version" none
        o.superseded_write_fails
      let s1 := step1.1
      let old_vid := step1.2
      let ev1 := MergeEvent.write_superseded_version old_vid.isSome
      if o.update_raises then
        (s1, false, [ev1, MergeEvent.update_live false])
      else
        let s2 : DBState :=
          ⟨s1.regulatory_updates.map (fun r =>
            if r.id == existing_id then
              { r with source_identifier := nd.source_identifier,
                       content_hash := nd.content_hash,
                       meta_prev_version_id := old_vid }
            else r),
           s1.decision_versions, s1.next_id⟩
        let step3 := create_version_record s2 nd.source_identifier version chash
          "scraper" "Updated from new scrape" old_vid o.new_write_fails
        (step3.1, true,
         [ev1, MergeEvent.update_live true,
          MergeEvent.write_new_version step3.2.isSome old_vid])

inductive ProcessResult
  | inserted
  | updated
  | skipped
  | error
deriving DecidableEq

/-- Failure oracle for `process_with_duplicate_detection`. -/
structure ProcessOracle where
  check_query_raises : Bool
  check_version_query_raises : Bool
  insert_raises : Bool
  initial_version_write_fails : Bool
  merge : MergeOracle
deriving DecidableEq

def all_ok_merge : MergeOracle := ⟨false, false, false, false⟩

def all_ok : ProcessOracle := ⟨false, false, false, false, all_ok_merge⟩

/-- `process_with_duplicate_detection` from
`src/backend/scrapers/duplicate_detector.py`. -/
def process_with_duplicate_detection (s : DBState) (nd : NewData)
    (o : ProcessOracle) : DBState × ProcessResult :=
  let dup := check_duplicate s nd.source_identifier nd.content_hash
    o.check_query_raises o.check_version_query_raises
  match dup.action with
  | DupAction.skip => (s, ProcessResult.skipped)
  | DupAction.update =>
    let out := merge_duplicate s (dup.existing_id.getD 0) nd nd.content_hash
      dup.version o.merge
    (out.1, if out.2.1 then ProcessResult.updated else ProcessResult.error)
  | DupAction.insert =>
    if o.insert_raises then (s, ProcessResult.error)
    else
      let r : RegRecord :=
        ⟨s.next_id, nd.source_identifier, nd.source_type, nd.content_hash, none⟩
      let s1 : DBState :=
        ⟨s.regulatory_updates ++ [r], s.decision_versions, s.next_id + 1⟩
      let s2 := (create_version_record s1 nd.source_identifier 1 nd.content_hash
        "scraper" "Initial scrape" none o.initial_version_write_fails).1
      (s2, ProcessResult.inserted)

/-! ### C9 -/

/-- C9: when the repository lookup inside `check_duplicate` raises, the
exception is caught and the result is
`{is_duplicate: false, action: insert, existing_id: null, version: 1}` —
the same answer as for a brand-new document against an empty repository;
the error is never surfaced to the caller. -/
theorem c9_lookup_failure (s : DBState) (sid chash : String) (vfail : Bool) :
    check_duplicate s sid chash true vfail =
      ⟨false, DupAction.insert, none, none, 1⟩ ∧
    check_duplicate s sid chash true vfail =
      check_duplicate ⟨[], [], 0⟩ sid chash false false :=
  ⟨rfl, rfl⟩

/-! ### C4 -/

/-- C4: with a working repository, `check_duplicate` returns
`insert`/version 1 when no record carries the `source_identifier`;
`skip` with the current latest version when the (unique) existing
tribunal record has the same hash; `update` with latest+1 when its hash
differs; and submitting the identical `(source_identifier,
content_hash)` twice through the processing pipeline inserts once, then
yields `skipped` with the repository state unchanged (hence no new
version record). -/
theorem c4_check_duplicate (s : DBState) (sid chash : String) :
    ((∀ r ∈ s.regulatory_updates, r.source_identifier ≠ sid) →
      check_duplicate s sid chash false false =
        ⟨false, DupAction.insert, none, none, 1⟩) ∧
    (∀ r : RegRecord, s.regulatory_updates.filter (tribunal_matches sid) = [r] →
      (r.content_hash = chash →
        check_duplicate s sid chash false false =
          ⟨true, DupAction.skip, some r.id, some r.content_hash,
            get_latest_version s sid false⟩) ∧
      (r.content_hash ≠ chash →
        check_duplicate s sid chash false false =
          ⟨true, DupAction.update, some r.id, some r.content_hash,
            get_latest_version s sid false + 1⟩)) ∧
    (∀ nd : NewData, nd.source_type = "employment_tribunal" →
      (∀ r ∈ s.regulatory_updates, r.source_identifier ≠ nd.source_identifier) →
      (process_with_duplicate_detection s nd all_ok).2 = ProcessResult.inserted ∧
      (process_with_duplicate_detection
        (process_with_duplicate_detection s nd all_ok).1 nd all_ok).2 =
        ProcessResult.skipped ∧
      (process_with_duplicate_detection
        (process_with_duplicate_detection s nd all_ok).1 nd all_ok).1 =
        (process_with_duplicate_detection s nd all_ok).1) := by
  refine ⟨?_, ?_, ?_⟩
  · intro hfresh
    have hfilter : s.regulatory_updates.filter (tribunal_matches sid) = [] := by
      apply List.filter_eq_nil_iff.mpr
      intro r hr
      simp [tribunal_matches, hfresh r hr]
    simp [check_duplicate, hfilter]
  · intro r hfil
    constructor
    · intro hh
      simp [check_duplicate, hfil, hh]
    · intro hh
      simp [check_duplicate, hfil, hh]
  · intro nd hnd hfresh
    have hfilter : s.regulatory_updates.filter
        (tribunal_matches nd.source_identifier) = [] := by
      apply List.filter_eq_nil_iff.mpr
      intro r hr
      simp [tribunal_matches, hfresh r hr]
    have hp1 : process_with_duplicate_detection s nd all_ok =
        (⟨s.regulatory_updates ++
            [⟨s.next_id, nd.source_identifier, nd.source_type, nd.content_hash, none⟩],
          s.decision_versions ++
            [⟨s.next_id + 1, nd.source_identifier, 1, nd.content_hash,
              "scraper", "Initial scrape", none⟩],
          s.next_id + 2⟩, ProcessResult.inserted) := by
      simp [process_with_duplicate_detection, all_ok, all_ok_merge,
        check_duplicate, hfilter, create_version_record]
    have haction : (check_duplicate
        (⟨s.regulatory_updates ++
            [(⟨s.next_id, nd.source_identifier, nd.source_type, nd.content_hash,
              none⟩ : RegRecord)],
          s.decision_versions ++
            [(⟨s.next_id + 1, nd.source_identifier, 1, nd.content_hash,
              "scraper", "Initial scrape", none⟩ : VersionRecord)],
          s.next_id + 2⟩ : DBState)
        nd.source_identifier nd.content_hash false false).action = DupAction.skip := by
      simp [check_duplicate, List.filter_append, hfilter, tribunal_matches, hnd]
    have hp2 : process_with_duplicate_detection
        (process_with_duplicate_detection s nd all_ok).1 nd all_ok =
        ((process_with_duplicate_detection s nd all_ok).1, ProcessResult.skipped) := by
      rw [hp1]
      simp [process_with_duplicate_detection, all_ok, haction]
    exact ⟨by rw [hp1], by rw [hp2], by rw [hp2]⟩

/-- Witness for C4: all three branch statements applied against a
concrete one-record repository, and the insert-then-skip pipeline
scenario on an empty repository. -/
theorem c4_check_duplicate_witness :
    check_duplicate ⟨[], [], 0⟩ "ET-2026-001234" "abc" false false =
      ⟨false, DupAction.insert, none, none, 1⟩ ∧
    check_duplicate ⟨[⟨7, "ET-2026-001234", "employment_tribunal", "abc", none⟩],
        [⟨3, "ET-2026-001234", 1, "abc", "scraper", "Initial scrape", none⟩], 8⟩
        "ET-2026-001234" "abc" false false =
      ⟨true, DupAction.skip, some 7, some "abc", 1⟩ ∧
    check_duplicate ⟨[⟨7, "ET-2026-001234", "employment_tribunal", "abc", none⟩],
        [⟨3, "ET-2026-001234", 1, "abc", "scraper", "Initial scrape", none⟩], 8⟩
        "ET-2026-001234" "xyz" false false =
      ⟨true, DupAction.update, some 7, some "abc", 2⟩ ∧
    (process_with_duplicate_detection
      (process_with_duplicate_detection ⟨[], [], 0⟩
        ⟨"ET-2026-001234", "employment_tribunal", "abc"⟩ all_ok).1
      ⟨"ET-2026-001234", "employment_tribunal", "abc"⟩ all_ok).2 =
      ProcessResult.skipped := by
  refine ⟨?_, ?_, ?_, ?_⟩
  · exact (c4_check_duplicate ⟨[], [], 0⟩ "ET-2026-001234" "abc").1 (by simp)
  · exact ((c4_check_duplicate _ "ET-2026-001234" "abc").2.1
      ⟨7, "ET-2026-001234", "employment_tribunal", "abc", none⟩ (by decide)).1 rfl
  · exact ((c4_check_duplicate _ "ET-2026-001234" "xyz").2.1
      ⟨7, "ET-2026-001234", "employment_tribunal", "abc", none⟩ (by decide)).2 (by decide)
  · exact ((c4_check_duplicate ⟨[], [], 0⟩ "ET-2026-001234" "abc").2.2
      ⟨"ET-2026-001234", "employment_tribunal", "abc"⟩ rfl (by simp)).2.1

/-! ### C8 -/

/-- No version record references a version-record id that is not in the
list. -/
def chain_safe_list (l : List VersionRecord) : Prop :=
  ∀ v ∈ l, ∀ pid, v.previous_version_id = some pid → ∃ w ∈ l, w.id = pid

/-- Chain safety of the `decision_versions` table. -/
def chain_safe (s : DBState) : Prop := chain_safe_list s.decision_versions

theorem chain_safe_snoc (l : List VersionRecord) (v : VersionRecord)
    (hl : chain_safe_list l)
    (hv : ∀ pid, v.previous_version_id = some pid → ∃ w ∈ l ++ [v], w.id = pid) :
    chain_safe_list (l ++ [v]) := by
  intro u hu pid hp
  rcases List.mem_append.mp hu with h | h
  · obtain ⟨w, hw, hwid⟩ := hl u h pid hp
    exact ⟨w, List.mem_append_left _ hw, hwid⟩
  · rw [List.mem_singleton.mp h] at hp
    exact hv pid hp

/-- C8, counterexample.  The claim states that in every execution of
`merge_duplicate` on an existing record the superseded-version record is
written before the live-record update is attempted.  In the execution
where the superseded-version insert fails (its internal `except` returns
`None`), the live update is still attempted — and indeed applied — while
no version record for the superseded version (version 1) is ever
written. -/
theorem c8_counterexample :
    (merge_duplicate ⟨[⟨1, "ET-1", "employment_tribunal", "h1", none⟩], [], 2⟩ 1
        ⟨"ET-1", "employment_tribunal", "h2"⟩ "h2" 2
        ⟨false, true, false, false⟩).2.2.any isUpdateAttempt = true ∧
    (merge_duplicate ⟨[⟨1, "ET-1", "employment_tribunal", "h1", none⟩], [], 2⟩ 1
        ⟨"ET-1", "employment_tribunal", "h2"⟩ "h2" 2
        ⟨false, true, false, false⟩).1.regulatory_updates =
      [⟨1, "ET-1", "employment_tribunal", "h2", none⟩] ∧
    ∀ v ∈ (merge_duplicate ⟨[⟨1, "ET-1", "employment_tribunal", "h1", none⟩], [], 2⟩ 1
        ⟨"ET-1", "employment_tribunal", "h2"⟩ "h2" 2
        ⟨false, true, false, false⟩).1.decision_versions, v.version ≠ 1 := by
  refine ⟨rfl, rfl, ?_⟩
  decide

/-- C8 (amended): in every execution of `merge_duplicate`, whenever the
live-record update is attempted the superseded-version write was
attempted first (it heads the trace); when every repository call
succeeds, the final state holds a version record for the superseded
version and a version record for the new version whose
`previous_version_id` is the id of the superseded one; and under every
failure pattern the version table stays chain-safe — no version record
ever references a version record that was not written.  (If the
superseded-version write itself fails, the update is still attempted and
the new version record carries a null back-reference.) -/
theorem c8_merge (s : DBState) (eid : Nat) (nd : NewData) (chash : String)
    (version : Nat) (o : MergeOracle) (hsafe : chain_safe s) :
    ((merge_duplicate s eid nd chash version o).2.2.any isUpdateAttempt = true →
      ∃ b, (merge_duplicate s eid nd chash version o).2.2.head? =
        some (MergeEvent.write_superseded_version b)) ∧
    chain_safe (merge_duplicate s eid nd chash version o).1 ∧
    (o = all_ok_merge → (∃ r ∈ s.regulatory_updates, r.id = eid) →
      ∃ w ∈ (merge_duplicate s eid nd chash version o).1.decision_versions,
        w.version = version - 1 ∧ w.change_reason = "Superseded by new version" ∧
        ∃ n ∈ (merge_duplicate s eid nd chash version o).1.decision_versions,
          n.version = version ∧ n.previous_version_id = some w.id ∧
          n.change_reason = "Updated from new scrape") := by
  obtain ⟨sr, ow, ur, nw⟩ := o
  cases sr with
  | true =>
    refine ⟨?_, ?_, ?_⟩
    · intro h
      simp [merge_duplicate] at h
    · simpa [merge_duplicate] using hsafe
    · intro h
      simp [all_ok_merge] at h
  | false =>
    cases hf : s.regulatory_updates.filter (fun r => r.id == eid) with
    | nil =>
      refine ⟨?_, ?_, ?_⟩
      · intro h
        simp [merge_duplicate, hf] at h
      · simpa [merge_duplicate, hf] using hsafe
      · intro _ hex
        obtain ⟨r, hr, hrid⟩ := hex
        have hmem : r ∈ s.regulatory_updates.filter (fun x => x.id == eid) :=
          List.mem_filter.mpr ⟨hr, by simp [hrid]⟩
        rw [hf] at hmem
        exact absurd hmem (List.not_mem_nil r)
    | cons existing tl =>
      cases ur with
      | true =>
        cases ow with
        | true =>
          refine ⟨?_, ?_, ?_⟩
          · intro _
            exact ⟨false, by simp [merge_duplicate, hf, create_version_record]⟩
          · simpa [merge_duplicate, hf, create_version_record, chain_safe] using hsafe
          · intro h
            simp [all_ok_merge] at h
        | false =>
          refine ⟨?_, ?_, ?_⟩
          · intro _
            exact ⟨true, by simp [merge_duplicate, hf, create_version_record]⟩
          · have hdv : (merge_duplicate s eid nd chash version
                ⟨false, false, true, nw⟩).1.decision_versions =
                s.decision_versions ++
                  [⟨s.next_id, nd.source_identifier, version - 1,
                    existing.content_hash, "scraper", "Superseded by new version",
                    none⟩] := by
              simp [merge_duplicate, hf, create_version_record]
            simp only [chain_safe]
            rw [hdv]
            exact chain_safe_snoc _ _ hsafe (fun pid hp => nomatch hp)
          · intro h
            simp [all_ok_merge] at h
      | false =>
        cases ow with
        | true =>
          cases nw with
          | true =>
            refine ⟨?_, ?_, ?_⟩
            · intro _
              exact ⟨false, by simp [merge_duplicate, hf, create_version_record]⟩
            · simpa [merge_duplicate, hf, create_version_record, chain_safe] using hsafe
            · intro h
              simp [all_ok_merge] at h
          | false =>
            refine ⟨?_, ?_, ?_⟩
            · intro _
              exact ⟨false, by simp [merge_duplicate, hf, create_version_record]⟩
            · have hdv : (merge_duplicate s eid nd chash version
                  ⟨false, true, false, false⟩).1.decision_versions =
                  s.decision_versions ++
                    [⟨s.next_id, nd.source_identifier, version, chash,
                      "scraper", "Updated from new scrape", none⟩] := by
                simp [merge_duplicate, hf, create_version_record]
              simp only [chain_safe]
              rw [hdv]
              exact chain_safe_snoc _ _ hsafe (fun pid hp => nomatch hp)
            · intro h
              simp [all_ok_merge] at h
        | false =>
          cases nw with
          | true =>
            refine ⟨?_, ?_, ?_⟩
            · intro _
              exact ⟨true, by simp [merge_duplicate, hf, create_version_record]⟩
            · have hdv : (merge_duplicate s eid nd chash version
                  ⟨false, false, false, true⟩).1.decision_versions =
                  s.decision_versions ++
                    [⟨s.next_id, nd.source_identifier, version - 1,
                      existing.content_hash, "scraper", "Superseded by new version",
                      none⟩] := by
                simp [merge_duplicate, hf, create_version_record]
              simp only [chain_safe]
              rw [hdv]
              exact chain_safe_snoc _ _ hsafe (fun pid hp => nomatch hp)
            · intro h
              simp [all_ok_merge] at h
          | false =>
            have hdv : (merge_duplicate s eid nd chash version
                ⟨false, false, false, false⟩).1.decision_versions =
                (s.decision_versions ++
                  [⟨s.next_id, nd.source_identifier, version - 1,
                    existing.content_hash, "scraper", "Superseded by new version",
                    none⟩]) ++
                  [⟨s.next_id + 1, nd.source_identifier, version, chash,
                    "scraper", "Updated from new scrape", some s.next_id⟩] := by
              simp [merge_duplicate, hf, create_version_record]
            refine ⟨?_, ?_, ?_⟩
            · intro _
              exact ⟨true, by simp [merge_duplicate, hf, create_version_record]⟩
            · simp only [chain_safe]
              rw [hdv]
              apply chain_safe_snoc
              · exact chain_safe_snoc _ _ hsafe (fun pid hp => nomatch hp)
              · intro pid hp
                refine ⟨⟨s.next_id, nd.source_identifier, version - 1,
                  existing.content_hash, "scraper", "Superseded by new version",
                  none⟩, ?_, ?_⟩
                · exact List.mem_append_left _
                    (List.mem_append_right _ (List.mem_singleton.mpr rfl))
                · exact Option.some.inj hp
            · intro _ _
              rw [hdv]
              refine ⟨⟨s.next_id, nd.source_identifier, version - 1,
                existing.content_hash, "scraper", "Superseded by new version",
                none⟩, ?_, rfl, rfl,
                ⟨s.next_id + 1, nd.source_identifier, version, chash,
                  "scraper", "Updated from new scrape", some s.next_id⟩, ?_,
                rfl, rfl, rfl⟩
              · exact List.mem_append_left _
                  (List.mem_append_right _ (List.mem_singleton.mpr rfl))
              · exact List.mem_append_right _ (List.mem_singleton.mpr rfl)

/-- Witness for C8: the amended statement applied to a concrete
one-record repository under the all-success oracle. -/
theorem c8_merge_witness :
    chain_safe (merge_duplicate ⟨[⟨1, "ET-1", "employment_tribunal", "h1", none⟩],
      [], 2⟩ 1 ⟨"ET-1", "employment_tribunal", "h2"⟩ "h2" 2 all_ok_merge).1 ∧
    ∃ w ∈ (merge_duplicate ⟨[⟨1, "ET-1", "employment_tribunal", "h1", none⟩],
        [], 2⟩ 1 ⟨"ET-1", "employment_tribunal", "h2"⟩ "h2" 2 all_ok_merge).1.decision_versions,
      w.version = 1 ∧ w.change_reason = "Superseded by new version" ∧
      ∃ n ∈ (merge_duplicate ⟨[⟨1, "ET-1", "employment_tribunal", "h1", none⟩],
          [], 2⟩ 1 ⟨"ET-1", "employment_tribunal", "h2"⟩ "h2" 2 all_ok_merge).1.decision_versions,
        n.version = 2 ∧ n.previous_version_id = some w.id ∧
        n.change_reason = "Updated from new scrape" :=
  ⟨(c8_merge ⟨[⟨1, "ET-1", "employment_tribunal", "h1", none⟩], [], 2⟩ 1
      ⟨"ET-1", "employment_tribunal", "h2"⟩ "h2" 2 all_ok_merge
      (fun v hv => absurd hv (List.not_mem_nil v))).2.1,
   (c8_merge ⟨[⟨1, "ET-1", "employment_tribunal", "h1", none⟩], [], 2⟩ 1
      ⟨"ET-1", "employment_tribunal", "h2"⟩ "h2" 2 all_ok_merge
      (fun v hv => absurd hv (List.not_mem_nil v))).2.2 rfl
      ⟨⟨1, "ET-1", "employment_tribunal", "h1", none⟩, List.mem_singleton.mpr rfl, rfl⟩⟩

end DupDetect

/-! ## Base scraper deduplicating insert (`src/scrapers/base.py`) -/

namespace BaseScr

/-- A normalised row as produced by `_normalise` (the canonical fields
its docstring requires), plus the `source` key that
`_deduplicate_and_insert` sets before inserting. -/
structure Row where
  title : String
  summary : String
  jurisdiction : String
  source_url : String
  published_at : String
  content_hash : String
  source : Option String
deriving DecidableEq

/-- The mutation `row["source"] = source_name` performed on each row to
be inserted. -/
def set_source (name : String) (r : Row) : Row := { r with source := some name }

/-- `BaseScraper._deduplicate_and_insert`: query the hashes of stored
rows among the incoming hashes, keep the incoming rows whose hash is not
among them, stamp the source, insert, and return the inserted rows.  The
result is the pair (returned rows, table after the call).  The stored
table is modelled by its list of rows. -/
def deduplicate_and_insert (repo : List Row) (rows : List Row)
    (source_name : String) : List Row × List Row :=
  match rows with
  | [] => ([], repo)
  | _ :: _ =>
    let hashes := rows.map (fun r => r.content_hash)
    let existing_hashes := (repo.filter
      (fun r => hashes.contains r.content_hash)).map (fun r => r.content_hash)
    let new_rows := (rows.filter
      (fun r => !(existing_hashes.contains r.content_hash))).map (set_source source_name)
    (new_rows, repo ++ new_rows)

/-- C10: `_deduplicate_and_insert` inserts exactly the incoming rows
whose `content_hash` is not already stored at the start of the call
(`source_identifier` plays no role — rows do not even carry one); the
table afterwards is the old table plus the inserted rows; the empty
batch inserts nothing; and two same-batch rows sharing a hash that is
not yet stored are both inserted and both returned. -/
theorem c10_dedup (repo rows : List Row) (name : String) :
    (deduplicate_and_insert repo rows name).1 =
      (rows.filter (fun r =>
        !((repo.map (fun x => x.content_hash)).contains r.content_hash))).map
        (set_source name) ∧
    (deduplicate_and_insert repo rows name).2 =
      repo ++ (deduplicate_and_insert repo rows name).1 ∧
    (deduplicate_and_insert repo [] name).1 = [] ∧
    (∀ r1 r2 : Row, r1.content_hash = r2.content_hash →
      (∀ x ∈ repo, x.content_hash ≠ r1.content_hash) →
      (deduplicate_and_insert repo [r1, r2] name).1 =
        [set_source name r1, set_source name r2]) := by
  have hchar : ∀ rows2 : List Row, (deduplicate_and_insert repo rows2 name).1 =
      (rows2.filter (fun r =>
        !((repo.map (fun x => x.content_hash)).contains r.content_hash))).map
        (set_source name) := by
    intro rows2
    cases rows2 with
    | nil => rfl
    | cons a l =>
      simp only [deduplicate_and_insert]
      congr 1
      apply List.filter_congr
      intro x hx
      congr 1
      rw [Bool.eq_iff_iff]
      constructor
      · intro h
        obtain ⟨y, hy, hyh⟩ := List.mem_map.mp (List.elem_iff.mp h)
        exact List.elem_iff.mpr (List.mem_map.mpr ⟨y, (List.mem_filter.mp hy).1, hyh⟩)
      · intro h
        obtain ⟨y, hy, hyh⟩ := List.mem_map.mp (List.elem_iff.mp h)
        apply List.elem_iff.mpr
        apply List.mem_map.mpr
        refine ⟨y, List.mem_filter.mpr ⟨hy, ?_⟩, hyh⟩
        rw [hyh]
        exact List.elem_iff.mpr (List.mem_map.mpr ⟨x, hx, rfl⟩)
  have hsecond : (deduplicate_and_insert repo rows name).2 =
      repo ++ (deduplicate_and_insert repo rows name).1 := by
    cases rows with
    | nil => simp [deduplicate_and_insert]
    | cons a l => simp only [deduplicate_and_insert]
  refine ⟨hchar rows, hsecond, rfl, ?_⟩
  intro r1 r2 hhash hfresh
  rw [hchar [r1, r2]]
  have h1 : ((repo.map (fun x => x.content_hash)).contains r1.content_hash) = false := by
    rw [Bool.eq_false_iff]
    intro hc
    obtain ⟨y, hy, hyh⟩ := List.mem_map.mp (List.elem_iff.mp hc)
    exact hfresh y hy hyh
  have h2 : ((repo.map (fun x => x.content_hash)).contains r2.content_hash) = false := by
    rw [← hhash]
    exact h1
  simp only [List.filter_cons, List.filter_nil, h1, h2, Bool.not_false, if_true,
    List.map_cons, List.map_nil]

/-- Witness for C10: the same-hash pair conjunct applied at two concrete
rows against an empty table. -/
theorem c10_dedup_witness :
    (deduplicate_and_insert [] [⟨"t1", "s1", "US-FEDERAL", "u1", "d1", "h", none⟩,
      ⟨"t2", "s2", "US-FEDERAL", "u2", "d2", "h", none⟩] "federal_register").1 =
    [⟨"t1", "s1", "US-FEDERAL", "u1", "d1", "h", some "federal_register"⟩,
     ⟨"t2", "s2", "US-FEDERAL", "u2", "d2", "h", some "federal_register"⟩] :=
  (c10_dedup [] [⟨"t1", "s1", "US-FEDERAL", "u1", "d1", "h", none⟩,
      ⟨"t2", "s2", "US-FEDERAL", "u2", "d2", "h", none⟩] "federal_register").2.2.2
    ⟨"t1", "s1", "US-FEDERAL", "u1", "d1", "h", none⟩
    ⟨"t2", "s2", "US-FEDERAL", "u2", "d2", "h", none⟩ rfl
    (fun x hx => absurd hx (List.not_mem_nil x))

end BaseScr

/-! ## Data quality checker (`src/backend/scrapers/data_integrity.py`)

`datetime.fromisoformat` (after the `Z` replacement) is abstracted as a
`parse` parameter returning `none` on `ValueError`, `datetime.now()` as
an abstract instant `now`, and `compute_content_hash` as an abstract
`hash_fn`.  Issue descriptions and `detected_at` timestamps carry no
information the claims use and are omitted from the issue record. -/

namespace DataIntegrity

/-- A `regulatory_updates` row as the quality checker reads it
(`decision.get(...)` fields; `metadata_content_hash` is
`metadata['content_hash']` when present). -/
structure Decision where
  id : Option String
  source_identifier : Option String
  title : Option String
  full_text : Option String
  url : Option String
  published_date : Option String
  metadata_content_hash : Option String
deriving DecidableEq

/-- Python truthiness of `decision.get(field)`: `None` and the empty
string are falsy. -/
def truthy : Option String → Bool
  | none => false
  | some s => !s.isEmpty

/-- `DataQualityIssue` dataclass (description and `detected_at`
omitted). -/
structure DataQualityIssue where
  record_id : String
  field_name : String
  issue_type : String
  severity : String
deriving DecidableEq

/-- Lookup of the four required fields by name (the loop
`for field in required_fields`). -/
def required_field_get (d : Decision) : String → Option String
  | "source_identifier" => d.source_identifier
  | "title" => d.title
  | "full_text" => d.full_text
  | "url" => d.url
  | _ => none

/-- `DataQualityChecker.check_decision_quality`. -/
def check_decision_quality (parse : String → Option Int) (now : Int)
    (hash_fn : String → String) (d : Decision) : List DataQualityIssue :=
  let record_id := d.id.getD "unknown"
  let missing_issues := (["source_identifier", "title", "full_text", "url"].filter
    (fun f => !truthy (required_field_get d f))).map
    (fun f => (⟨record_id, f, "missing", "critical"⟩ : DataQualityIssue))
  let full_text := d.full_text.getD ""
  let length_issues := if full_text.length < 100 then
    [(⟨record_id, "full_text", "suspicious", "warning"⟩ : DataQualityIssue)] else []
  let url := d.url.getD ""
  let url_issues :=
    if !url.isEmpty && !(url.startsWith "http://" || url.startsWith "https://") then
      [(⟨record_id, "url", "invalid", "warning"⟩ : DataQualityIssue)] else []
  let date_issues :=
    if truthy d.published_date then
      match parse (d.published_date.getD "") with
      | none => [(⟨record_id, "published_date", "malformed", "warning"⟩ : DataQualityIssue)]
      | some t =>
        if now < t then
          [(⟨record_id, "published_date", "invalid", "warning"⟩ : DataQualityIssue)]
        else []
    else []
  let hash_issues :=
    match d.metadata_content_hash with
    | some expected =>
      if truthy d.full_text && hash_fn full_text != expected then
        [(⟨record_id, "content_hash", "invalid", "critical"⟩ : DataQualityIssue)]
      else []
    | none => []
  missing_issues ++ length_issues ++ url_issues ++ date_issues ++ hash_issues

/-- The daily report dictionary (`report_date` and the `details`
truncation carry no claim-relevant information and are omitted;
`missing_count` and `suspicious_count` record the values of
`issues_by_type.get('missing', 0)` and
`issues_by_type.get('suspicious', 0)`). -/
structure QualityReport where
  total_records : Nat
  issues_found : Nat
  critical_issues : Nat
  missing_count : Nat
  suspicious_count : Nat
  recommendations : List String
deriving DecidableEq

/-- `issues_by_type.get(t, 0)`: the number of collected issues with the
given `issue_type`. -/
def count_type (issues : List DataQualityIssue) (t : String) : Nat :=
  (issues.filter (fun i => i.issue_type == t)).length

/-- The aggregation body of `run_daily_quality_report` (lines 327-361),
applied to the records the 7-day window query would return. -/
def report_body (parse : String → Option Int) (now : Int)
    (hash_fn : String → String) (recent : List Decision) : QualityReport :=
  let total_records := recent.length
  let all_issues := (recent.map (check_decision_quality parse now hash_fn)).flatten
  let critical_count := (all_issues.filter (fun i => i.severity == "critical")).length
  let missing := count_type all_issues "missing"
  let suspicious := count_type all_issues "suspicious"
  let recommendations :=
    (if 0 < critical_count then
      [toString critical_count ++ " critical issues require immediate attention"]
    else [])
    ++ (if (missing : ℚ) > (total_records : ℚ) * 0.1 then
      ["High rate of missing required fields - check scraper"] else [])
    ++ (if (suspicious : ℚ) > (total_records : ℚ) * 0.05 then
      ["Many suspiciously short decisions - verify scraping logic"] else [])
  ⟨total_records, all_issues.length, critical_count, missing, suspicious,
    recommendations⟩

/-- The names bound by the `datetime` import of
`src/backend/scrapers/data_integrity.py` (line 15:
`from datetime import datetime`). -/
def datetime_imports : List String := ["datetime"]

/-- Whether the name `timedelta`, used at line 319, is in scope:
it is not. -/
def timedelta_in_scope : Bool := datetime_imports.contains "timedelta"

/-- `DataQualityChecker.run_daily_quality_report`: line 319 evaluates
`timedelta(days=7)`; since `timedelta` is not imported this raises
`NameError` before any query or aggregation runs, the `except` at line
366 catches it and the function returns the empty dict (modelled as
`none`).  The aggregation body is reached only if `timedelta` resolves. -/
def run_daily_quality_report (parse : String → Option Int) (now : Int)
    (hash_fn : String → String) (recent : List Decision) : Option QualityReport :=
  if timedelta_in_scope then some (report_body parse now hash_fn recent) else none

/-- C5 (code bug): `run_daily_quality_report` always returns the empty
dict — the `timedelta(days=7)` at line 319 raises `NameError`
(`timedelta` is never imported), which its `except` swallows — so no
counts and no recommendations are ever produced, against the claim (and
the function docstring).  Had the aggregation body run, a single stored
record with every required field empty would have produced the
missing-field recommendation (missing rate 4 > 10% of 1 record) and the
suspicious-length recommendation (1 > 5% of 1 record), as the second
conjunct shows. -/
theorem c5_daily_report_name_error :
    (∀ (parse : String → Option Int) (now : Int) (hash_fn : String → String)
      (recent : List Decision),
      run_daily_quality_report parse now hash_fn recent = none) ∧
    (∀ (parse : String → Option Int) (now : Int) (hash_fn : String → String),
      (report_body parse now hash_fn
        [⟨none, none, none, none, none, none, none⟩]).recommendations =
        ["4 critical issues require immediate attention",
         "High rate of missing required fields - check scraper",
         "Many suspiciously short decisions - verify scraping logic"]) := by
  constructor
  · intro parse now hash_fn recent
    rfl
  · intro parse now hash_fn
    have hissues : (([⟨none, none, none, none, none, none, none⟩] :
        List Decision).map (check_decision_quality parse now hash_fn)).flatten =
        [⟨"unknown", "source_identifier", "missing", "critical"⟩,
         ⟨"unknown", "title", "missing", "critical"⟩,
         ⟨"unknown", "full_text", "missing", "critical"⟩,
         ⟨"unknown", "url", "missing", "critical"⟩,
         ⟨"unknown", "full_text", "suspicious", "warning"⟩] := rfl
    have hcrit : (([⟨"unknown", "source_identifier", "missing", "critical"⟩,
         ⟨"unknown", "title", "missing", "critical"⟩,
         ⟨"unknown", "full_text", "missing", "critical"⟩,
         ⟨"unknown", "url", "missing", "critical"⟩,
         ⟨"unknown", "full_text", "suspicious", "warning"⟩] :
        List DataQualityIssue).filter (fun i => i.severity == "critical")).length
        = 4 := rfl
    have hmiss : count_type
        [⟨"unknown", "source_identifier", "missing", "critical"⟩,
         ⟨"unknown", "title", "missing", "critical"⟩,
         ⟨"unknown", "full_text", "missing", "critical"⟩,
         ⟨"unknown", "url", "missing", "critical"⟩,
         ⟨"unknown", "full_text", "suspicious", "warning"⟩] "missing" = 4 := rfl
    have hsusp : count_type
        [⟨"unknown", "source_identifier", "missing", "critical"⟩,
         ⟨"unknown", "title", "missing", "critical"⟩,
         ⟨"unknown", "full_text", "missing", "critical"⟩,
         ⟨"unknown", "url", "missing", "critical"⟩,
         ⟨"unknown", "full_text", "suspicious", "warning"⟩] "suspicious" = 1 := rfl
    simp only [report_body, hissues, hcrit, hmiss, hsusp, List.length_cons,
      List.length_nil]
    norm_num
    rfl

end DataIntegrity

end Ailane
